import Mathlib

/-!
Verification of the pulp_ostree web importer sync steps.

Shallow embedding of `plugins/pulp_ostree/plugins/importers/steps.py`:
the four-stage sync pipeline (Create, Pull, Add, Clean) and the `Remote`
configurator.  External collaborators (the OSTree library `lib`, the GPG
keyring, the filesystem, the conduit) are modelled as explicit parameters
or as explicit state threaded through the step functions.
-/

/-- The typed errors raised by the steps (`PulpCodedException` with the
error codes from `pulp_ostree.common.errors`). -/
inductive PulpError
  | OST0001 (path : String) (reason : String)
  | OST0002 (branch : String) (reason : String)
  | OST0003 (id : String) (reason : String)
  deriving DecidableEq, Repr

/-- Outcome of `lib.Repository.open()`: success, failure because the
repository does not yet exist, or failure for any other reason.  The code
observes only `lib.LibError` (the latter two cases collapsed); the
distinction is kept in the model so the spec's wording can be compared. -/
inductive OpenResult
  | ok
  | notFound (reason : String)
  | failed (reason : String)
  deriving DecidableEq, Repr

/-- Behaviour of the OSTree library and platform collaborators for one
run, as observed by the steps: each library call's result is a field. -/
structure Engine where
  openResult : OpenResult
  createResult : Except String Unit
  addRemoteResult : Except String Unit
  pullResult : String → Except String Unit
  deleteResult : Except String Unit

/-- Embeds `Pull.process_main`: pull each configured branch in list order through
`lib.Repository.pull`; a `lib.LibError` on a branch is wrapped as
`PulpCodedException(errors.OST0002, branch=branch_id, reason=str(le))` and
propagates, so no later branch is attempted.  Returns the list of branches
for which a pull was invoked (in invocation order) and the result. -/
def Pull.process_main (pull : String → Except String Unit) :
    List String → List String × Except PulpError Unit
  | [] => ([], Except.ok ())
  | b :: rest =>
    match pull b with
    | Except.ok _ =>
      let r := Pull.process_main pull rest
      (b :: r.1, r.2)
    | Except.error reason => ([b], Except.error (PulpError.OST0002 b reason))

example : Pull.process_main (fun _ => Except.ok ()) ["a", "b"] =
    (["a", "b"], Except.ok ()) := rfl

example : Pull.process_main
    (fun b => if b = "B" then Except.error "boom" else Except.ok ())
    ["A", "B", "C"] = (["A", "B"], Except.error (PulpError.OST0002 "B" "boom")) := rfl

/-- The importer configuration (`PluginCallConfiguration.get` lookups used
by the steps).  String-valued keys are `Option String`; an absent key is
`none`. -/
structure Config where
  feed : Option String
  branches : Option (List String)
  ssl_client_key : Option String
  ssl_client_cert : Option String
  ssl_ca_cert : Option String
  ssl_validation : Bool
  proxy_host : Option String
  proxy_port : Option String
  proxy_user : Option String
  proxy_pass : Option String
  gpg_key_blobs : Option (List String)
  deriving Repr

/-- Python truthiness of an optional string configuration value
(`if key:`): absent and empty string are both falsy. -/
def truthy : Option String → Bool
  | none => false
  | some s => !s.isEmpty

/-- Embeds the branch lookup of `Main.__init__`: `self.branches = self.config.get(KEY_BRANCHES, [])` —
the branch list defaults to the empty list when the key is absent. -/
def Main.branches (c : Config) : List String := c.branches.getD []

/-- A regular file in the modelled filesystem: its content and its
permission bits. -/
structure FsFile where
  content : String
  mode : Nat
  deriving DecidableEq, Repr

/-- The modelled filesystem: an association of paths to regular files. -/
abbrev Fs := List (String × FsFile)

/-- Default permission bits given to a file created by `open` with mode "w+". -/
def defaultFileMode : Nat := 0o644

/-- Look up a path in the modelled filesystem. -/
def fsGet (fs : Fs) (p : String) : Option FsFile :=
  (fs.find? (fun e => e.1 == p)).map (fun e => e.2)

/-- Embeds `open(path, ...)` followed by `fp.write(content)`: create (with default mode) or
truncate-and-rewrite (keeping the existing mode). -/
def fsWrite (fs : Fs) (p content : String) : Fs :=
  match fsGet fs p with
  | some f => (p, ⟨content, f.mode⟩) :: fs.filter (fun e => e.1 != p)
  | none => (p, ⟨content, defaultFileMode⟩) :: fs

/-- Embeds `os.chmod(path, mode)`. -/
def fsChmod (fs : Fs) (p : String) (m : Nat) : Fs :=
  fs.map (fun e => if e.1 == p then (e.1, ⟨e.2.content, m⟩) else e)

/-- Embeds `Remote.proxy_url`: `host:port` when both host and port are truthy,
prefixed with `user:password@` when both user and password are also
truthy; `None` otherwise. -/
def Remote.proxy_url (c : Config) : Option String :=
  let host := c.proxy_host
  let port := c.proxy_port
  let user := c.proxy_user
  let password := c.proxy_pass
  if truthy host && truthy port then
    let url := host.getD "" ++ ":" ++ port.getD ""
    if truthy user && truthy password then
      some ((user.getD "" ++ ":" ++ password.getD "") ++ "@" ++ url)
    else
      some url
  else
    none

/-- Embeds `Remote.ssl_key_path`: when the client key material is truthy, write
it to `key.pem` in the working directory, chmod the file to `0600` and
return its path; otherwise return `None` and leave the filesystem
untouched. -/
def Remote.ssl_key_path (c : Config) (working_dir : String) (fs : Fs) :
    Option String × Fs :=
  if truthy c.ssl_client_key then
    let path := working_dir ++ "/key.pem"
    let fs1 := fsWrite fs path (c.ssl_client_key.getD "")
    (some path, fsChmod fs1 path 0o600)
  else
    (none, fs)

/-- Embeds `Remote.ssl_cert_path`: when the client certificate is truthy, write
it to `cert.pem` (default permissions) and return its path. -/
def Remote.ssl_cert_path (c : Config) (working_dir : String) (fs : Fs) :
    Option String × Fs :=
  if truthy c.ssl_client_cert then
    let path := working_dir ++ "/cert.pem"
    (some path, fsWrite fs path (c.ssl_client_cert.getD ""))
  else
    (none, fs)

/-- Embeds `Remote.ssl_ca_path`: when the CA certificate is truthy, write it to
`ca.pem` (default permissions) and return its path. -/
def Remote.ssl_ca_path (c : Config) (working_dir : String) (fs : Fs) :
    Option String × Fs :=
  if truthy c.ssl_ca_cert then
    let path := working_dir ++ "/ca.pem"
    (some path, fsWrite fs path (c.ssl_ca_cert.getD ""))
  else
    (none, fs)

/-- Embeds `Remote.gpg_keys`: import every configured key blob into a keyring at
`pubring.gpg` under the working directory (`map(gpg.import_keys, key_list)`)
and read back the key IDs actually present (`gpg.list_keys()`).  The GPG
library is modelled by `import_keys : String → List String`, the key IDs a
blob contributes to the keyring — a failed import contributes `[]` without
raising. -/
def Remote.gpg_keys (import_keys : String → List String) (c : Config)
    (working_dir : String) : String × List String :=
  let key_list := c.gpg_key_blobs.getD []
  (working_dir ++ "/pubring.gpg", (key_list.map import_keys).flatten)

/-- The `lib.Remote` as configured by `Remote.add`: the attributes
assigned before `update()`, plus the key IDs passed to `import_key` (empty
when `import_key` was not called). -/
structure LibRemote where
  remote_id : String
  url : Option String
  ssl_key_path : Option String
  ssl_cert_path : Option String
  ssl_ca_path : Option String
  ssl_validation : Bool
  gpg_validation : Bool
  proxy_url : Option String
  imported_key_ids : List String
  deriving Repr

/-- Embeds `Remote.add`: resolve the keyring (`path, key_ids = self.gpg_keys`),
materialize the TLS files, configure the `lib.Remote` attributes, call
`update()`, and call `import_key(path, key_ids)` only when `key_ids` is
non-empty.  Returns the configured remote and the resulting filesystem. -/
def Remote.add (import_keys : String → List String) (c : Config)
    (working_dir repo_id : String) (fs : Fs) : LibRemote × Fs :=
  let gk := Remote.gpg_keys import_keys c working_dir
  let kp := Remote.ssl_key_path c working_dir fs
  let cp := Remote.ssl_cert_path c working_dir kp.2
  let ap := Remote.ssl_ca_path c working_dir cp.2
  ({ remote_id := repo_id
     url := c.feed
     ssl_key_path := kp.1
     ssl_cert_path := cp.1
     ssl_ca_path := ap.1
     ssl_validation := c.ssl_validation
     gpg_validation := decide (0 < gk.2.length)
     proxy_url := Remote.proxy_url c
     imported_key_ids := if gk.2.isEmpty then [] else gk.2 }, ap.2)

/-- Observable outcome of `Create._init_repository`: whether
`repository.create()` was invoked, and the stage's result. -/
structure InitTrace where
  createAttempted : Bool
  result : Except PulpError Unit
  deriving Repr

/-- The `except lib.LibError: repository.create()` handler shared by both
open-failure cases: create the repository, then register the remote; a
`lib.LibError` from either is wrapped as `OST0001` by the outer handler. -/
def Create.onOpenFailure (eng : Engine) (path : String) : InitTrace :=
  match eng.createResult with
  | Except.error r => ⟨true, Except.error (PulpError.OST0001 path r)⟩
  | Except.ok _ =>
    match eng.addRemoteResult with
    | Except.ok _ => ⟨true, Except.ok ()⟩
    | Except.error r => ⟨true, Except.error (PulpError.OST0001 path r)⟩

/-- Embeds `Create._init_repository`: open the repository; on any `lib.LibError`
from `open()` fall back to `create()`; then build and `add()` the remote;
any `lib.LibError` escaping is wrapped as
`PulpCodedException(errors.OST0001, path=path, reason=str(le))`. -/
def Create.init_repository (eng : Engine) (path : String) : InitTrace :=
  match eng.openResult with
  | OpenResult.ok =>
    match eng.addRemoteResult with
    | Except.ok _ => ⟨false, Except.ok ()⟩
    | Except.error r => ⟨false, Except.error (PulpError.OST0001 path r)⟩
  | OpenResult.notFound _ => Create.onOpenFailure eng path
  | OpenResult.failed _ => Create.onOpenFailure eng path

/-- The open/create discipline as the spec words it: "Attempt to open the
mirror; if opening fails because it does not yet exist, create it; any
other open failure is fatal" (no create attempted).  Stated only to be
compared against `Create.init_repository`, which is the code. -/
def Create.init_repository_specWording (eng : Engine) (path : String) : InitTrace :=
  match eng.openResult with
  | OpenResult.ok =>
    match eng.addRemoteResult with
    | Except.ok _ => ⟨false, Except.ok ()⟩
    | Except.error r => ⟨false, Except.error (PulpError.OST0001 path r)⟩
  | OpenResult.notFound _ => Create.onOpenFailure eng path
  | OpenResult.failed r => ⟨false, Except.error (PulpError.OST0001 path r)⟩

/-- Embeds `Clean.process_main`: delete the remote named by the repo id; a
`lib.LibError` is wrapped as
`PulpCodedException(errors.OST0003, id=remote_id, reason=str(le))`. -/
def Clean.process_main (eng : Engine) (remote_id : String) :
    Except PulpError Unit :=
  match eng.deleteResult with
  | Except.ok _ => Except.ok ()
  | Except.error r => Except.error (PulpError.OST0003 remote_id r)

/-- What occupies a path in the content-links area of the filesystem. -/
inductive PathEntry
  | symlink (target : String)
  | regular
  deriving DecidableEq, Repr

/-- The links filesystem seen by `os.symlink` / `os.path.islink` /
`os.readlink`. -/
abbrev LinkFs := List (String × PathEntry)

/-- Look up a path in the links filesystem. -/
def lfsGet (fs : LinkFs) (p : String) : Option PathEntry :=
  (fs.find? (fun e => e.1 == p)).map (fun e => e.2)

/-- Embeds `Add.link`: `os.symlink(target, link)`; on `EEXIST`, pass when the
existing entry is a symlink whose target equals `target` (identical),
otherwise re-raise the `OSError`. -/
def Add.link (fs : LinkFs) (link target : String) : Except String LinkFs :=
  match lfsGet fs link with
  | none => Except.ok ((link, PathEntry.symlink target) :: fs)
  | some (PathEntry.symlink t) =>
    if t == target then Except.ok fs
    else Except.error ("EEXIST: " ++ link)
  | some PathEntry.regular => Except.error ("EEXIST: " ++ link)

/-- A branch head returned by `lib.Repository.list_refs()`. -/
structure BranchRef where
  path : String
  commit : String
  metadata : List (String × String)
  deriving DecidableEq, Repr

/-- A `model.Unit` handed to `conduit.save_unit` for a branch head. -/
structure ContentUnit where
  remote_id : String
  branch_path : String
  commit : String
  metadata : List (String × String)
  storage_path : String
  deriving DecidableEq, Repr

/-- Observable calls made by `Add.process_main`, in order: `linked b` is a
call to `self.link` for branch `b`; `saved b` a call to
`conduit.save_unit` for branch `b`. -/
inductive AddEvent
  | linked (branch : String)
  | saved (branch : String)
  deriving DecidableEq, Repr

/-- Embeds `Add.process_main`: for each ref from `list_refs()`, skip it when its
path is not in the configured branches; otherwise build the unit, link its
storage path to the mirror (`storage_path_of` gives `unit.storage_path`
for a branch path), and save it through the conduit.  An `OSError` from
`link` propagates, aborting the loop.  Returns the event trace and, on
success, the final links filesystem with the saved units in order. -/
def Add.process_main (remote_id : String) (storage_path_of : String → String)
    (branches : List String) (mirror_path : String) :
    List BranchRef → LinkFs →
    List AddEvent × Except String (LinkFs × List ContentUnit)
  | [], fs => ([], Except.ok (fs, []))
  | ref :: rest, fs =>
    if branches.contains ref.path then
      match Add.link fs (storage_path_of ref.path) mirror_path with
      | Except.ok fs1 =>
        let r := Add.process_main remote_id storage_path_of branches mirror_path rest fs1
        (AddEvent.linked ref.path :: AddEvent.saved ref.path :: r.1,
         match r.2 with
         | Except.ok p =>
           Except.ok (p.1,
             ⟨remote_id, ref.path, ref.commit, ref.metadata,
              storage_path_of ref.path⟩ :: p.2)
         | Except.error e => Except.error e)
      | Except.error e => ([AddEvent.linked ref.path], Except.error e)
    else
      Add.process_main remote_id storage_path_of branches mirror_path rest fs

/-- A primary failure of a run: a typed step error, or a raw `OSError`
escaping `Add.link`. -/
inductive RunError
  | pulp (e : PulpError)
  | os (e : String)
  deriving DecidableEq, Repr

/-- Outcome of one pipeline run: whether Clean was attempted, the primary
(first fatal) error of the Create/Pull/Add sequence, and the error Clean
itself raised, kept separate. -/
structure RunOutcome where
  cleanAttempted : Bool
  primaryError : Option RunError
  cleanupError : Option PulpError
  deriving Repr

/-- Modelled from the spec: the generic step-execution host that runs
`Main`'s four child steps (`pulp.plugins.util.publish_step`) is not part
of this repository's source.  Per the spec, the stages run strictly in
order Create, Pull, Add, Clean; "any stage failure aborts the remaining
stages except that CLEAN must still be attempted as a best-effort
finalizer whenever CREATE succeeded", and a Clean failure "does not
override an earlier fatal error" — the first fatal error is preserved as
primary, the cleanup error reported separately.  The stage bodies are the
code embeddings above. -/
def runPipeline (eng : Engine) (storage_path repo_id remote_id : String)
    (storage_path_of : String → String) (branches : List String)
    (refs : List BranchRef) (lfs : LinkFs) : RunOutcome :=
  match (Create.init_repository eng storage_path).result with
  | Except.error e =>
    { cleanAttempted := false
      primaryError := some (RunError.pulp e)
      cleanupError := none }
  | Except.ok _ =>
    let primary : Option RunError :=
      match (Pull.process_main eng.pullResult branches).2 with
      | Except.error e => some (RunError.pulp e)
      | Except.ok _ =>
        match (Add.process_main remote_id storage_path_of branches
            storage_path refs lfs).2 with
        | Except.error e => some (RunError.os e)
        | Except.ok _ => none
    let cleanup : Option PulpError :=
      match Clean.process_main eng repo_id with
      | Except.error e => some e
      | Except.ok _ => none
    { cleanAttempted := true
      primaryError := primary
      cleanupError := cleanup }

/-! ## Theorems -/

/-- C1: the Pull stage invokes the engine's pull for the configured
branches one at a time in list order; when every pull succeeds all
branches are attempted in order, and when the pull of some branch `bi`
raises an engine error, the attempted branches are exactly the prefix up
to and including `bi` (no later branch is attempted) and the stage raises
`BranchPullError` (OST0002) carrying `bi`'s name and the engine-supplied
reason. -/
theorem pull_sequential_aborts_on_first_failure
    (pull : String → Except String Unit) :
    (∀ bs : List String, (∀ b ∈ bs, pull b = Except.ok ()) →
      Pull.process_main pull bs = (bs, Except.ok ())) ∧
    (∀ (pre : List String) (bi : String) (post : List String) (reason : String),
      (∀ b ∈ pre, pull b = Except.ok ()) →
      pull bi = Except.error reason →
      Pull.process_main pull (pre ++ bi :: post) =
        (pre ++ [bi], Except.error (PulpError.OST0002 bi reason))) := by
  constructor
  · intro bs h
    induction bs with
    | nil => rfl
    | cons b rest ih =>
      have hb : pull b = Except.ok () := h b (by simp)
      have hr : ∀ x ∈ rest, pull x = Except.ok () := fun x hx => h x (by simp [hx])
      simp [Pull.process_main, hb, ih hr]
  · intro pre bi post reason hpre hbi
    induction pre with
    | nil => simp [Pull.process_main, hbi]
    | cons b rest ih =>
      have hb : pull b = Except.ok () := hpre b (by simp)
      have hr : ∀ x ∈ rest, pull x = Except.ok () := fun x hx => hpre x (by simp [hx])
      simp [Pull.process_main, hb, ih hr]

/-- Witness for C1: with branches `["A", "B", "C"]` where pulling `"B"`
fails with reason `"boom"`, exactly `["A", "B"]` are attempted and the
stage fails with `OST0002 "B" "boom"`; `"C"` is never attempted. -/
theorem pull_sequential_aborts_on_first_failure_witness :
    Pull.process_main
        (fun b => if b = "B" then Except.error "boom" else Except.ok ())
        (["A"] ++ "B" :: ["C"]) =
      (["A"] ++ ["B"], Except.error (PulpError.OST0002 "B" "boom")) :=
  (pull_sequential_aborts_on_first_failure _).2 ["A"] "B" ["C"] "boom"
    (by intro b hb
        have hb' : b = "A" := by simpa using hb
        subst hb'
        rfl)
    rfl

/-- C2: whenever Create succeeds, the Clean stage is still attempted; a
later stage failure (Pull or Add) becomes the run's primary error and is
not replaced by anything Clean does, and a failure inside Clean is
reported separately as `RemoteCleanupError` (OST0003). -/
theorem clean_is_best_effort_finalizer
    (eng : Engine) (storage_path repo_id remote_id : String)
    (spo : String → String) (branches : List String)
    (refs : List BranchRef) (lfs : LinkFs)
    (hcreate : (Create.init_repository eng storage_path).result = Except.ok ()) :
    (runPipeline eng storage_path repo_id remote_id spo branches refs lfs).cleanAttempted
        = true ∧
    (∀ pe, (Pull.process_main eng.pullResult branches).2 = Except.error pe →
      (runPipeline eng storage_path repo_id remote_id spo branches refs lfs).primaryError
          = some (RunError.pulp pe)) ∧
    (∀ oe, (Pull.process_main eng.pullResult branches).2 = Except.ok () →
      (Add.process_main remote_id spo branches storage_path refs lfs).2
          = Except.error oe →
      (runPipeline eng storage_path repo_id remote_id spo branches refs lfs).primaryError
          = some (RunError.os oe)) ∧
    (∀ r, eng.deleteResult = Except.error r →
      (runPipeline eng storage_path repo_id remote_id spo branches refs lfs).cleanupError
          = some (PulpError.OST0003 repo_id r)) := by
  refine ⟨?_, ?_, ?_, ?_⟩
  · simp [runPipeline, hcreate]
  · intro pe hpe
    simp [runPipeline, hcreate, hpe]
  · intro oe hpull hadd
    simp [runPipeline, hcreate, hpull, hadd]
  · intro r hr
    simp [runPipeline, hcreate, Clean.process_main, hr]

/-- A concrete engine for the C2 witness: Create succeeds, pulling branch
`"B"` fails, and Clean's remote deletion also fails. -/
def engC2 : Engine :=
  { openResult := OpenResult.ok
    createResult := Except.ok ()
    addRemoteResult := Except.ok ()
    pullResult := fun b => if b = "B" then Except.error "boom" else Except.ok ()
    deleteResult := Except.error "busy" }

/-- Witness for C2: on `engC2` with branches `["B"]`, Clean is attempted,
the primary error is the pull's `OST0002` and the cleanup error is
`OST0003` — the primary error is not replaced. -/
theorem clean_is_best_effort_finalizer_witness :
    (runPipeline engC2 "/mirror" "repo1" "rid" id ["B"] [] []).cleanAttempted = true ∧
    (runPipeline engC2 "/mirror" "repo1" "rid" id ["B"] [] []).primaryError
        = some (RunError.pulp (PulpError.OST0002 "B" "boom")) ∧
    (runPipeline engC2 "/mirror" "repo1" "rid" id ["B"] [] []).cleanupError
        = some (PulpError.OST0003 "repo1" "busy") := by
  have h := clean_is_best_effort_finalizer engC2 "/mirror" "repo1" "rid" id
    ["B"] [] [] rfl
  exact ⟨h.1, h.2.1 (PulpError.OST0002 "B" "boom") rfl, h.2.2.2 "busy" rfl⟩

/-- Counterexample for C3: the claim says that when `open()` fails for a
reason other than "does not yet exist", the stage is fatal and no create
is attempted.  The code catches every `lib.LibError` from `open()` alike
and falls back to `create()`: on an engine whose open fails with
"permission denied" (not a not-found failure) while create and remote
registration succeed, create IS attempted and the stage succeeds. -/
theorem init_repository_other_open_failure_cex :
    ¬ (∀ (eng : Engine) (path reason : String),
        eng.openResult = OpenResult.failed reason →
        (Create.init_repository eng path).createAttempted = false ∧
        (∃ e, (Create.init_repository eng path).result = Except.error e)) := by
  intro h
  have := h
    { openResult := OpenResult.failed "permission denied"
      createResult := Except.ok ()
      addRemoteResult := Except.ok ()
      pullResult := fun _ => Except.ok ()
      deleteResult := Except.ok () }
    "/mirror" "permission denied" rfl
  simp [Create.init_repository, Create.onOpenFailure] at this

/-- C3 (amended): when opening the mirror fails — whether because it does
not yet exist or for any other reason — creation is attempted and the
stage proceeds when creation and remote registration succeed; when
opening succeeds no create is attempted; and any failure of the stage is
reported as `RepositoryInitError` (OST0001) carrying the mirror path and
an engine reason. -/
theorem init_repository_amended (eng : Engine) (path : String) :
    (eng.openResult = OpenResult.ok →
      (Create.init_repository eng path).createAttempted = false) ∧
    (∀ reason, eng.openResult = OpenResult.notFound reason ∨
        eng.openResult = OpenResult.failed reason →
      (Create.init_repository eng path).createAttempted = true) ∧
    (eng.openResult ≠ OpenResult.ok →
      eng.createResult = Except.ok () → eng.addRemoteResult = Except.ok () →
      (Create.init_repository eng path).result = Except.ok ()) ∧
    (∀ e, (Create.init_repository eng path).result = Except.error e →
      ∃ r, e = PulpError.OST0001 path r) := by
  obtain ⟨o, cr, ar, pl, dr⟩ := eng
  refine ⟨?_, ?_, ?_, ?_⟩
  · intro ho
    subst ho
    cases ar with
    | ok _ => rfl
    | error r => rfl
  · rintro reason (ho | ho) <;> subst ho <;>
      simp [Create.init_repository, Create.onOpenFailure] <;>
      cases cr <;> cases ar <;> rfl
  · intro ho hcr har
    subst hcr; subst har
    cases o with
    | ok => exact absurd rfl ho
    | notFound r => rfl
    | failed r => rfl
  · intro e he
    cases o <;> cases cr <;> cases ar <;>
      simp [Create.init_repository, Create.onOpenFailure] at he <;>
      exact ⟨_, he.symm⟩

/-- Witness for C3 (amended): a failed open with reason "permission
denied" on an engine whose create fails with "disk full" attempts the
create and reports `OST0001` with the path and a reason; a clean open
attempts no create. -/
theorem init_repository_amended_witness :
    (Create.init_repository
        { openResult := OpenResult.failed "permission denied"
          createResult := Except.error "disk full"
          addRemoteResult := Except.ok ()
          pullResult := fun _ => Except.ok ()
          deleteResult := Except.ok () } "/mirror").createAttempted = true ∧
    (∃ r, PulpError.OST0001 "/mirror" "disk full" = PulpError.OST0001 "/mirror" r) ∧
    (Create.init_repository
        { openResult := OpenResult.ok
          createResult := Except.ok ()
          addRemoteResult := Except.ok ()
          pullResult := fun _ => Except.ok ()
          deleteResult := Except.ok () } "/mirror").createAttempted = false := by
  refine ⟨?_, ?_, ?_⟩
  · exact (init_repository_amended
      { openResult := OpenResult.failed "permission denied"
        createResult := Except.error "disk full"
        addRemoteResult := Except.ok ()
        pullResult := fun _ => Except.ok ()
        deleteResult := Except.ok () } "/mirror").2.1 "permission denied" (Or.inr rfl)
  · exact (init_repository_amended
      { openResult := OpenResult.failed "permission denied"
        createResult := Except.error "disk full"
        addRemoteResult := Except.ok ()
        pullResult := fun _ => Except.ok ()
        deleteResult := Except.ok () } "/mirror").2.2.2
      (PulpError.OST0001 "/mirror" "disk full") rfl
  · exact (init_repository_amended
      { openResult := OpenResult.ok
        createResult := Except.ok ()
        addRemoteResult := Except.ok ()
        pullResult := fun _ => Except.ok ()
        deleteResult := Except.ok () } "/mirror").1 rfl

/-- C4: the key IDs of the registered remote are exactly those read back
from the keyring after importing the configured blobs (every such ID
comes from importing some configured blob, so failed imports silently
shrink the set), and `gpg_validation` is set iff that resolved set is
non-empty. -/
theorem remote_gpg_trust_set (import_keys : String → List String) (c : Config)
    (working_dir repo_id : String) (fs : Fs) :
    (Remote.add import_keys c working_dir repo_id fs).1.imported_key_ids
        = (Remote.gpg_keys import_keys c working_dir).2 ∧
    (∀ k, k ∈ (Remote.add import_keys c working_dir repo_id fs).1.imported_key_ids →
      ∃ blob ∈ c.gpg_key_blobs.getD [], k ∈ import_keys blob) ∧
    ((Remote.add import_keys c working_dir repo_id fs).1.gpg_validation = true ↔
      (Remote.add import_keys c working_dir repo_id fs).1.imported_key_ids ≠ []) := by
  have hids : (Remote.add import_keys c working_dir repo_id fs).1.imported_key_ids
      = (Remote.gpg_keys import_keys c working_dir).2 := by
    show (if ((Remote.gpg_keys import_keys c working_dir).2).isEmpty then []
          else (Remote.gpg_keys import_keys c working_dir).2)
        = (Remote.gpg_keys import_keys c working_dir).2
    rcases h : (Remote.gpg_keys import_keys c working_dir).2 with _ | ⟨k, ks⟩ <;> simp
  refine ⟨hids, ?_, ?_⟩
  · intro k hk
    rw [hids] at hk
    simp only [Remote.gpg_keys, List.mem_flatten] at hk
    obtain ⟨l, hl, hkl⟩ := hk
    obtain ⟨blob, hblob, rfl⟩ := List.mem_map.mp hl
    exact ⟨blob, hblob, hkl⟩
  · rw [hids]
    show decide (0 < (Remote.gpg_keys import_keys c working_dir).2.length) = true ↔ _
    rcases (Remote.gpg_keys import_keys c working_dir).2 with _ | ⟨k, ks⟩ <;> simp

/-- A present configuration value is truthy exactly when it is not the
empty string. -/
theorem truthy_some_iff (s : String) : truthy (some s) = true ↔ s ≠ "" := by
  constructor
  · intro ht he
    subst he
    exact absurd ht (by decide)
  · intro hne
    cases he : s.isEmpty with
    | false => simp [truthy, he]
    | true => exact absurd ((String.isEmpty_iff s).mp he) hne

/-- C5: the proxy URL is `user:password@host:port` when all four values
are present (truthy); `host:port` when host and port are present but user
or password is missing (partial credentials ignored, no error); and
absent whenever host or port is missing. -/
theorem proxy_url_composition (c : Config) :
    (∀ h p u w, c.proxy_host = some h → h ≠ "" →
      c.proxy_port = some p → p ≠ "" →
      c.proxy_user = some u → u ≠ "" →
      c.proxy_pass = some w → w ≠ "" →
      Remote.proxy_url c = some (u ++ ":" ++ w ++ "@" ++ h ++ ":" ++ p)) ∧
    (∀ h p, c.proxy_host = some h → h ≠ "" →
      c.proxy_port = some p → p ≠ "" →
      truthy c.proxy_user = false ∨ truthy c.proxy_pass = false →
      Remote.proxy_url c = some (h ++ ":" ++ p)) ∧
    (truthy c.proxy_host = false ∨ truthy c.proxy_port = false →
      Remote.proxy_url c = none) := by
  refine ⟨?_, ?_, ?_⟩
  · intro h p u w hh hhne hp hpne hu hune hw hwne
    have h1 : truthy (some h) = true := (truthy_some_iff h).mpr hhne
    have h2 : truthy (some p) = true := (truthy_some_iff p).mpr hpne
    have h3 : truthy (some u) = true := (truthy_some_iff u).mpr hune
    have h4 : truthy (some w) = true := (truthy_some_iff w).mpr hwne
    simp [Remote.proxy_url, hh, hp, hu, hw, h1, h2, h3, h4, String.append_assoc]
  · rintro h p hh hhne hp hpne hcred
    have h1 : truthy (some h) = true := (truthy_some_iff h).mpr hhne
    have h2 : truthy (some p) = true := (truthy_some_iff p).mpr hpne
    rcases hcred with hu | hw
    · simp [Remote.proxy_url, hh, hp, h1, h2, hu]
    · simp [Remote.proxy_url, hh, hp, h1, h2, hw]
  · rintro (hh | hp)
    · simp [Remote.proxy_url, hh]
    · simp [Remote.proxy_url, hp]

/-- Witness for C5: full credentials give `u:w@h:p`; user without
password gives `h:p`; a missing host gives no proxy. -/
theorem proxy_url_composition_witness :
    Remote.proxy_url
        { feed := none, branches := none, ssl_client_key := none
          ssl_client_cert := none, ssl_ca_cert := none, ssl_validation := false
          proxy_host := some "h", proxy_port := some "3128"
          proxy_user := some "u", proxy_pass := some "w"
          gpg_key_blobs := none } = some ("u" ++ ":" ++ "w" ++ "@" ++ "h" ++ ":" ++ "3128") ∧
    Remote.proxy_url
        { feed := none, branches := none, ssl_client_key := none
          ssl_client_cert := none, ssl_ca_cert := none, ssl_validation := false
          proxy_host := some "h", proxy_port := some "3128"
          proxy_user := some "u", proxy_pass := none
          gpg_key_blobs := none } = some ("h" ++ ":" ++ "3128") ∧
    Remote.proxy_url
        { feed := none, branches := none, ssl_client_key := none
          ssl_client_cert := none, ssl_ca_cert := none, ssl_validation := false
          proxy_host := none, proxy_port := some "3128"
          proxy_user := some "u", proxy_pass := some "w"
          gpg_key_blobs := none } = none := by
  refine ⟨?_, ?_, ?_⟩
  · exact (proxy_url_composition _).1 "h" "3128" "u" "w" rfl (by decide) rfl
      (by decide) rfl (by decide) rfl (by decide)
  · exact (proxy_url_composition _).2.1 "h" "3128" rfl (by decide) rfl (by decide)
      (Or.inr rfl)
  · exact (proxy_url_composition _).2.2 (Or.inl rfl)

/-- Looking up the path just pushed on the modelled filesystem returns the
pushed file. -/
theorem fsGet_cons_self (fs : Fs) (p : String) (f : FsFile) :
    fsGet ((p, f) :: fs) p = some f := by
  unfold fsGet
  rw [List.find?_cons_of_pos _ (by simp)]
  rfl

/-- After `fsWrite`, the written path holds the new content; the mode is
the pre-existing one, or the default for a fresh file. -/
theorem fsGet_fsWrite_self (fs : Fs) (p content : String) :
    fsGet (fsWrite fs p content) p
      = some ⟨content, ((fsGet fs p).map FsFile.mode).getD defaultFileMode⟩ := by
  unfold fsWrite
  cases h : fsGet fs p with
  | some f => simp [fsGet_cons_self]
  | none => simp [fsGet_cons_self]

/-- After `fsChmod`, the target path holds the same content with the new
mode. -/
theorem fsGet_fsChmod_self (fs : Fs) (p : String) (m : Nat) :
    fsGet (fsChmod fs p m) p
      = (fsGet fs p).map (fun f => ⟨f.content, m⟩) := by
  induction fs with
  | nil => rfl
  | cons e rest ih =>
    cases he : (e.1 == p) with
    | true =>
      simp only [fsChmod, List.map_cons, he, if_true]
      rw [show fsChmod rest p m = List.map
        (fun e => if e.1 == p then (e.1, FsFile.mk e.2.content m) else e) rest from rfl] at *
      unfold fsGet
      rw [List.find?_cons_of_pos _ (by simpa using he),
        List.find?_cons_of_pos _ (by simpa using he)]
      rfl
    | false =>
      simp only [fsChmod, List.map_cons, he, if_false]
      unfold fsGet
      rw [List.find?_cons_of_neg _ (by simp [he]),
        List.find?_cons_of_neg _ (by simp [he])]
      exact ih

/-- C6: when SSL client key material is present (truthy), it is written
to `key.pem` in the working directory with permission bits 0600 and that
path is returned; when absent, nothing is written and the path is
`None`. -/
theorem ssl_key_written_with_0600 (c : Config) (wd : String) (fs : Fs) :
    (truthy c.ssl_client_key = true →
      (Remote.ssl_key_path c wd fs).1 = some (wd ++ "/key.pem") ∧
      ∃ f, fsGet (Remote.ssl_key_path c wd fs).2 (wd ++ "/key.pem") = some f ∧
        f.content = c.ssl_client_key.getD "" ∧ f.mode = 0o600) ∧
    (truthy c.ssl_client_key = false →
      (Remote.ssl_key_path c wd fs).1 = none ∧
      (Remote.ssl_key_path c wd fs).2 = fs) := by
  constructor
  · intro ht
    refine ⟨by simp [Remote.ssl_key_path, ht], ?_⟩
    refine ⟨⟨c.ssl_client_key.getD "", 0o600⟩, ?_, rfl, rfl⟩
    have h2 : (Remote.ssl_key_path c wd fs).2
        = fsChmod (fsWrite fs (wd ++ "/key.pem") (c.ssl_client_key.getD ""))
            (wd ++ "/key.pem") 0o600 := by
      simp [Remote.ssl_key_path, ht]
    rw [h2, fsGet_fsChmod_self, fsGet_fsWrite_self]
    rfl
  · intro ht
    exact ⟨by simp [Remote.ssl_key_path, ht], by simp [Remote.ssl_key_path, ht]⟩

/-- A configuration carrying only SSL client key material. -/
def cfgWithKey : Config :=
  { feed := none, branches := none, ssl_client_key := some "KEYDATA"
    ssl_client_cert := none, ssl_ca_cert := none, ssl_validation := false
    proxy_host := none, proxy_port := none, proxy_user := none
    proxy_pass := none, gpg_key_blobs := none }

/-- The empty configuration: every key absent. -/
def cfgEmpty : Config :=
  { feed := none, branches := none, ssl_client_key := none
    ssl_client_cert := none, ssl_ca_cert := none, ssl_validation := false
    proxy_host := none, proxy_port := none, proxy_user := none
    proxy_pass := none, gpg_key_blobs := none }

/-- Witness for C6: with key material `"KEYDATA"` the file
`/work/key.pem` is written with mode 0600 and its path returned; with no
key material nothing is written and the path is `None`. -/
theorem ssl_key_written_with_0600_witness :
    (Remote.ssl_key_path cfgWithKey "/work" []).1 = some ("/work" ++ "/key.pem") ∧
    (∃ f, fsGet (Remote.ssl_key_path cfgWithKey "/work" []).2 ("/work" ++ "/key.pem")
        = some f ∧ f.content = cfgWithKey.ssl_client_key.getD "" ∧ f.mode = 0o600) ∧
    (Remote.ssl_key_path cfgEmpty "/work" []).1 = none ∧
    (Remote.ssl_key_path cfgEmpty "/work" []).2 = [] := by
  obtain ⟨h1, h2⟩ := (ssl_key_written_with_0600 cfgWithKey "/work" []).1 (by decide)
  obtain ⟨h3, h4⟩ := (ssl_key_written_with_0600 cfgEmpty "/work" []).2 (by decide)
  exact ⟨h1, h2, h3, h4⟩

/-- Looking up the path just pushed on the links filesystem returns the
pushed entry. -/
theorem lfsGet_cons_self (fs : LinkFs) (p : String) (x : PathEntry) :
    lfsGet ((p, x) :: fs) p = some x := by
  unfold lfsGet
  rw [List.find?_cons_of_pos _ (by simp)]
  rfl

/-- C7: `Add.link` creates the symlink when the path is free; calling it
again with the same link and target succeeds (idempotent, treated as
identical); a path occupied by a symlink to a different target, or by a
non-link file, makes it raise instead of overwriting. -/
theorem link_idempotent_and_conflicts (fs : LinkFs) (link target : String) :
    (lfsGet fs link = none →
      Add.link fs link target = Except.ok ((link, PathEntry.symlink target) :: fs)) ∧
    (∀ fs1, Add.link fs link target = Except.ok fs1 →
      Add.link fs1 link target = Except.ok fs1) ∧
    (∀ t, lfsGet fs link = some (PathEntry.symlink t) → t ≠ target →
      ∃ e, Add.link fs link target = Except.error e) ∧
    (lfsGet fs link = some PathEntry.regular →
      ∃ e, Add.link fs link target = Except.error e) := by
  refine ⟨?_, ?_, ?_, ?_⟩
  · intro h
    simp [Add.link, h]
  · intro fs1 h
    cases hg : lfsGet fs link with
    | none =>
      simp [Add.link, hg] at h
      subst h
      simp [Add.link, lfsGet_cons_self]
    | some ent =>
      cases ent with
      | symlink t =>
        cases ht : (t == target) with
        | true =>
          simp [Add.link, hg, ht] at h
          subst h
          simp [Add.link, hg, ht]
        | false =>
          simp [Add.link, hg, ht] at h
      | regular =>
        simp [Add.link, hg] at h
  · intro t hg hne
    have ht : (t == target) = false := by simp [hne]
    exact ⟨"EEXIST: " ++ link, by simp [Add.link, hg, ht]⟩
  · intro hg
    exact ⟨"EEXIST: " ++ link, by simp [Add.link, hg]⟩

/-- Witness for C7: on an empty links area, linking `"l" → "m"` creates
the symlink; repeating it succeeds unchanged; a pre-existing symlink to
`"other"`, or a regular file at `"l"`, raises. -/
theorem link_idempotent_and_conflicts_witness :
    Add.link [] "l" "m" = Except.ok [("l", PathEntry.symlink "m")] ∧
    Add.link [("l", PathEntry.symlink "m")] "l" "m"
        = Except.ok [("l", PathEntry.symlink "m")] ∧
    (∃ e, Add.link [("l", PathEntry.symlink "other")] "l" "m" = Except.error e) ∧
    (∃ e, Add.link [("l", PathEntry.regular)] "l" "m" = Except.error e) := by
  refine ⟨?_, ?_, ?_, ?_⟩
  · exact (link_idempotent_and_conflicts [] "l" "m").1 rfl
  · exact (link_idempotent_and_conflicts [] "l" "m").2.1
      [("l", PathEntry.symlink "m")] rfl
  · exact (link_idempotent_and_conflicts [("l", PathEntry.symlink "other")]
      "l" "m").2.2.1 "other" rfl (by decide)
  · exact (link_idempotent_and_conflicts [("l", PathEntry.regular)]
      "l" "m").2.2.2 rfl

/-- C8: when the Add stage completes, the saved units are exactly one per
enumerated head whose branch path is in the configured list, in
enumeration order; heads outside the configured list generate no link or
save call at all (they are skipped, not deleted or modified). -/
theorem add_catalogs_exactly_configured_branches
    (remote_id : String) (spo : String → String) (branches : List String)
    (mirror : String) (refs : List BranchRef) (fs : LinkFs) :
    (∀ fs1 units,
      (Add.process_main remote_id spo branches mirror refs fs).2
          = Except.ok (fs1, units) →
      units = (refs.filter (fun r => branches.contains r.path)).map
        (fun r => ⟨remote_id, r.path, r.commit, r.metadata, spo r.path⟩)) ∧
    (∀ b, (AddEvent.linked b ∈ (Add.process_main remote_id spo branches mirror refs fs).1
        ∨ AddEvent.saved b ∈ (Add.process_main remote_id spo branches mirror refs fs).1) →
      branches.contains b = true) := by
  constructor
  · induction refs generalizing fs with
    | nil =>
      intro fs1 units h
      simp [Add.process_main] at h
      simp [← h.2]
    | cons ref rest ih =>
      intro fs1 units h
      cases hmem : branches.contains ref.path with
      | false =>
        simp only [Add.process_main, hmem, Bool.false_eq_true, if_false] at h
        rw [List.filter_cons_of_neg (by simpa using hmem)]
        exact ih fs fs1 units h
      | true =>
        simp only [Add.process_main, hmem, if_true] at h
        cases hlink : Add.link fs (spo ref.path) mirror with
        | ok fsA =>
          rw [hlink] at h
          cases hrec : (Add.process_main remote_id spo branches mirror rest fsA).2 with
          | ok p =>
            simp only [hrec] at h
            simp only [Except.ok.injEq, Prod.mk.injEq] at h
            rw [← h.2]
            rw [List.filter_cons_of_pos (by simpa using hmem), List.map_cons,
              ih fsA p.1 p.2 hrec]
          | error e =>
            simp only [hrec] at h
            cases h
        | error e =>
          rw [hlink] at h
          cases h
  · induction refs generalizing fs with
    | nil =>
      intro b hb
      simp [Add.process_main] at hb
    | cons ref rest ih =>
      intro b hb
      cases hmem : branches.contains ref.path with
      | false =>
        simp only [Add.process_main, hmem, Bool.false_eq_true, if_false] at hb
        exact ih fs b hb
      | true =>
        simp only [Add.process_main, hmem, if_true] at hb
        cases hlink : Add.link fs (spo ref.path) mirror with
        | ok fsA =>
          rw [hlink] at hb
          rcases hb with hb | hb <;> simp at hb <;>
            rcases hb with hb | hb
          · exact hb ▸ hmem
          · exact ih fsA b (Or.inl hb)
          · exact hb ▸ hmem
          · exact ih fsA b (Or.inr hb)
        | error e =>
          rw [hlink] at hb
          rcases hb with hb | hb <;> simp at hb
          exact hb ▸ hmem

/-- The stable branch head used in the Add-stage witnesses. -/
def refStable : BranchRef := ⟨"stable/x86_64/os", "c1", []⟩

/-- The testing branch head used in the Add-stage witnesses. -/
def refTesting : BranchRef := ⟨"testing/x86_64/os", "c2", []⟩

/-- Witness for C8: enumeration returns the stable and testing heads but
only the stable branch is configured — exactly one unit is saved, and it
is the filtered mapping of the enumerated heads. -/
theorem add_catalogs_exactly_configured_branches_witness :
    (Add.process_main "rid" id ["stable/x86_64/os"] "/mirror"
        [refStable, refTesting] []).2
      = Except.ok ([("stable/x86_64/os", PathEntry.symlink "/mirror")],
          [⟨"rid", "stable/x86_64/os", "c1", [], "stable/x86_64/os"⟩]) ∧
    ([⟨"rid", "stable/x86_64/os", "c1", [], "stable/x86_64/os"⟩] : List ContentUnit)
      = (([refStable, refTesting].filter
          (fun r => (["stable/x86_64/os"] : List String).contains r.path)).map
          (fun r => ⟨"rid", r.path, r.commit, r.metadata, id r.path⟩)) := by
  have h1 : (Add.process_main "rid" id ["stable/x86_64/os"] "/mirror"
      [refStable, refTesting] []).2
    = Except.ok ([("stable/x86_64/os", PathEntry.symlink "/mirror")],
        [⟨"rid", "stable/x86_64/os", "c1", [], "stable/x86_64/os"⟩]) := rfl
  exact ⟨h1, (add_catalogs_exactly_configured_branches "rid" id
    ["stable/x86_64/os"] "/mirror" [refStable, refTesting] []).1 _ _ h1⟩

/-- A well-formed Add trace: every `saved` event is immediately preceded
by the `linked` event of the same branch, and nothing dangles. -/
def wellLinked : List AddEvent → Bool
  | [] => true
  | AddEvent.linked b :: AddEvent.saved b' :: rest => b == b' && wellLinked rest
  | _ => false

/-- C9: in every run of the Add stage, each save is immediately preceded
by the (successful) link of the same unit; when a link raises, the trace
ends at that link call — no save is issued for that unit and no later
head is processed. -/
theorem link_established_before_save
    (remote_id : String) (spo : String → String) (branches : List String)
    (mirror : String) (refs : List BranchRef) (fs : LinkFs) :
    (∀ fs1 units,
      (Add.process_main remote_id spo branches mirror refs fs).2
          = Except.ok (fs1, units) →
      wellLinked (Add.process_main remote_id spo branches mirror refs fs).1 = true) ∧
    (∀ e,
      (Add.process_main remote_id spo branches mirror refs fs).2 = Except.error e →
      ∃ evs b, (Add.process_main remote_id spo branches mirror refs fs).1
          = evs ++ [AddEvent.linked b] ∧ wellLinked evs = true) := by
  constructor
  · induction refs generalizing fs with
    | nil =>
      intro fs1 units h
      rfl
    | cons ref rest ih =>
      intro fs1 units h
      cases hmem : branches.contains ref.path with
      | false =>
        simp only [Add.process_main, hmem, Bool.false_eq_true, if_false] at h ⊢
        exact ih fs fs1 units h
      | true =>
        simp only [Add.process_main, hmem, if_true] at h ⊢
        cases hlink : Add.link fs (spo ref.path) mirror with
        | ok fsA =>
          cases hrec : (Add.process_main remote_id spo branches mirror rest fsA).2 with
          | ok p =>
            show (ref.path == ref.path
              && wellLinked (Add.process_main remote_id spo branches mirror rest fsA).1)
                = true
            simp only [beq_self_eq_true, Bool.true_and]
            exact ih fsA p.1 p.2 hrec
          | error e1 =>
            rw [hlink] at h
            simp only [hrec] at h
            cases h
        | error e1 =>
          rw [hlink] at h
          exact Except.noConfusion h
  · induction refs generalizing fs with
    | nil =>
      intro e h
      cases h
    | cons ref rest ih =>
      intro e h
      cases hmem : branches.contains ref.path with
      | false =>
        simp only [Add.process_main, hmem, Bool.false_eq_true, if_false] at h ⊢
        exact ih fs e h
      | true =>
        simp only [Add.process_main, hmem, if_true] at h ⊢
        cases hlink : Add.link fs (spo ref.path) mirror with
        | ok fsA =>
          cases hrec : (Add.process_main remote_id spo branches mirror rest fsA).2 with
          | ok p =>
            rw [hlink] at h
            simp only [hrec] at h
            cases h
          | error e1 =>
            obtain ⟨evs, b, hevs, hwl⟩ := ih fsA e1 hrec
            refine ⟨AddEvent.linked ref.path :: AddEvent.saved ref.path :: evs, b, ?_, ?_⟩
            · show AddEvent.linked ref.path :: AddEvent.saved ref.path ::
                  (Add.process_main remote_id spo branches mirror rest fsA).1
                = (AddEvent.linked ref.path :: AddEvent.saved ref.path :: evs)
                  ++ [AddEvent.linked b]
              rw [hevs]
              simp
            · show (ref.path == ref.path && wellLinked evs) = true
              simp only [beq_self_eq_true, Bool.true_and]
              exact hwl
        | error e1 =>
          exact ⟨[], ref.path, rfl, rfl⟩

/-- Witness for C9: a regular file occupying the stable unit's storage
path makes the link raise: the trace is exactly the failing link call
(empty prefix before it), and the testing head is never processed; on a
clean links area the same refs produce a well-linked trace. -/
theorem link_established_before_save_witness :
    (∃ evs b,
      (Add.process_main "rid" id ["stable/x86_64/os", "testing/x86_64/os"] "/mirror"
          [refStable, refTesting]
          [("stable/x86_64/os", PathEntry.regular)]).1
        = evs ++ [AddEvent.linked b] ∧ wellLinked evs = true) ∧
    wellLinked (Add.process_main "rid" id ["stable/x86_64/os", "testing/x86_64/os"]
        "/mirror" [refStable, refTesting] []).1 = true := by
  constructor
  · exact (link_established_before_save "rid" id
      ["stable/x86_64/os", "testing/x86_64/os"] "/mirror"
      [refStable, refTesting] [("stable/x86_64/os", PathEntry.regular)]).2
      ("EEXIST: " ++ "stable/x86_64/os") rfl
  · exact (link_established_before_save "rid" id
      ["stable/x86_64/os", "testing/x86_64/os"] "/mirror"
      [refStable, refTesting] []).1
      [("testing/x86_64/os", PathEntry.symlink "/mirror"),
       ("stable/x86_64/os", PathEntry.symlink "/mirror")]
      [⟨"rid", "stable/x86_64/os", "c1", [], "stable/x86_64/os"⟩,
       ⟨"rid", "testing/x86_64/os", "c2", [], "testing/x86_64/os"⟩] rfl

/-- C10: when the branch-list configuration key is absent, the effective
branch list is empty: Pull performs zero pull calls and succeeds, and Add
issues no link or save call and saves zero units even when the mirror
enumerates heads — the run does not fail on that account. -/
theorem absent_branches_key_empty_run (c : Config) (hc : c.branches = none)
    (pull : String → Except String Unit) (remote_id : String)
    (spo : String → String) (mirror : String) (refs : List BranchRef)
    (lfs : LinkFs) :
    Main.branches c = [] ∧
    Pull.process_main pull (Main.branches c) = ([], Except.ok ()) ∧
    Add.process_main remote_id spo (Main.branches c) mirror refs lfs
      = ([], Except.ok (lfs, [])) := by
  have hb : Main.branches c = [] := by simp [Main.branches, hc]
  refine ⟨hb, ?_, ?_⟩
  · rw [hb]
    rfl
  · rw [hb]
    induction refs with
    | nil => rfl
    | cons ref rest ih => simpa [Add.process_main] using ih

/-- Witness for C10: on the empty configuration (branch key absent), with
an always-failing pull collaborator and two enumerated heads, the branch
list is `[]`, Pull succeeds with zero attempts and Add saves nothing. -/
theorem absent_branches_key_empty_run_witness :
    Main.branches cfgEmpty = [] ∧
    Pull.process_main (fun _ => Except.error "never called")
        (Main.branches cfgEmpty) = ([], Except.ok ()) ∧
    Add.process_main "rid" id (Main.branches cfgEmpty) "/mirror"
        [refStable, refTesting] [] = ([], Except.ok ([], [])) :=
  absent_branches_key_empty_run cfgEmpty rfl
    (fun _ => Except.error "never called") "rid" id "/mirror"
    [refStable, refTesting] []

/-- A GPG import behaviour where only `"blobA"` imports successfully,
contributing key ID `"AAA"`; any other blob fails silently. -/
def gpgImport : String → List String :=
  fun b => if b = "blobA" then ["AAA"] else []

/-- A configuration that lists one importable and one broken GPG key
blob. -/
def cfgGpg : Config :=
  { feed := some "https://example/repo", branches := none
    ssl_client_key := none, ssl_client_cert := none, ssl_ca_cert := none
    ssl_validation := false, proxy_host := none, proxy_port := none
    proxy_user := none, proxy_pass := none
    gpg_key_blobs := some ["blobA", "blobBAD"] }

/-- Witness for C4: with one importable and one broken blob the remote's
key IDs are exactly `["AAA"]` (a strict subset of the two configured
blobs, no error raised), each resolved ID comes from a configured blob,
and `gpg_validation` is enabled. -/
theorem remote_gpg_trust_set_witness :
    (Remote.add gpgImport cfgGpg "/work" "r1" []).1.imported_key_ids
        = (Remote.gpg_keys gpgImport cfgGpg "/work").2 ∧
    (∃ blob ∈ cfgGpg.gpg_key_blobs.getD [], "AAA" ∈ gpgImport blob) ∧
    (Remote.add gpgImport cfgGpg "/work" "r1" []).1.gpg_validation = true := by
  have hm : "AAA" ∈ (Remote.add gpgImport cfgGpg "/work" "r1" []).1.imported_key_ids := by
    show "AAA" ∈ ["AAA"]
    simp
  refine ⟨(remote_gpg_trust_set gpgImport cfgGpg "/work" "r1" []).1,
    (remote_gpg_trust_set gpgImport cfgGpg "/work" "r1" []).2.1 "AAA" hm,
    ((remote_gpg_trust_set gpgImport cfgGpg "/work" "r1" []).2.2).mpr ?_⟩
  intro hnil
  exact List.noConfusion (show (["AAA"] : List String) = [] from hnil)
